import Mathlib

/-!
# Verification of the historysim conversation/session persistence model

A shallow embedding of `src/historysim.py`: the persistent store (SQLite
tables `reports` and `simulations`), the session message model, the two
completion-backend normalizations, and the interactive loop bodies of
`chat_with_chrono` and `explore_timeline_as_avatar` (new simulation and
resumed simulation).  Effects that are environmental (HTTP outcomes,
`save_simulation` database faults, user input) are passed in as explicit
parameters; timestamps (`datetime.now().isoformat()`) are passed as `now`
strings.
-/

namespace HistorySim

/-! ## Python string helpers

`str.strip()` with no argument removes leading and trailing whitespace
(for the ASCII range: space, tab, newline, carriage return, vertical tab,
form feed).  `str.lower()` lowercases; on the ASCII range it maps A-Z to
a-z, which is all the program compares against (the control words are
ASCII). -/

def pyIsSpace (c : Char) : Bool :=
  c == ' ' || c == '\t' || c == '\n' || c == '\x0d' || c == '\x0b' || c == '\x0c'

/-- Python `s.strip()` restricted to ASCII whitespace. -/
def pyStrip (s : String) : String :=
  String.mk (((s.data.dropWhile pyIsSpace).reverse.dropWhile pyIsSpace).reverse)

/-- Python `s.lower()` on the ASCII range. -/
def pyLower (s : String) : String :=
  String.mk (s.data.map Char.toLower)

/-! ## Messages -/

/-- One conversation message, exactly as stored in the `messages` JSON
column: a `{"role": ..., "content": ...}` pair.  The program uses the
roles `"user"`, `"assistant"` and (only on the OpenAI wire, never in
storage) `"system"`. -/
structure Message where
  role : String
  content : String
deriving DecidableEq, Repr, Inhabited

/-! ## Backend response bodies and normalization -/

/-- One entry of an Anthropic response's `content` array.  The code reads
it with `item.get('type')` and `item.get('text', '')`, so both fields may
be absent. -/
structure ContentBlock where
  btype : Option String
  btext : Option String
deriving DecidableEq, Repr

/-- An Anthropic (Backend A) response body; the code reads
`data.get('content', [])`. -/
structure AnthropicBody where
  content : Option (List ContentBlock)
deriving DecidableEq, Repr

/-- Backend A normalization, from `generate_world` / `chat_with_chrono` /
`explore_timeline_as_avatar`:

    content = data.get('content', [])
    out = ''
    for item in content:
        if item.get('type') == 'text':
            out += item.get('text', '')
    out = out.strip()
-/
def extractAnthropicText (b : AnthropicBody) : String :=
  pyStrip ((b.content.getD []).foldl
    (fun acc item => if item.btype = some "text" then acc ++ item.btext.getD "" else acc) "")

/-- The concatenation, in order, of the `text` fields of the blocks whose
`type` is `"text"`, skipping all other blocks — the normalization as the
claim words it (without the final strip). -/
def claimConcatBlocks : List ContentBlock → String
  | [] => ""
  | b :: t =>
    if b.btype = some "text" then b.btext.getD "" ++ claimConcatBlocks t
    else claimConcatBlocks t

/-- A message object inside an OpenAI choice; the code reads
`.get('content', '')`. -/
structure OpenAIMessage where
  content : Option String
deriving DecidableEq, Repr

/-- One entry of an OpenAI response's `choices` array; the code reads
`.get('message', {})`. -/
structure OpenAIChoice where
  message : Option OpenAIMessage
deriving DecidableEq, Repr

/-- An OpenAI (Backend B) response body; the code reads
`data.get('choices', [{}])`. -/
structure OpenAIBody where
  choices : Option (List OpenAIChoice)
deriving DecidableEq, Repr

/-- Backend B normalization, from the resumed branch of
`explore_timeline_as_avatar`:

    narrator_response = data.get('choices', [{}])[0].get('message', {}).get('content', '').strip()

A missing `choices` key defaults to `[{}]`, whose first element yields the
empty string; a present but empty `choices` list makes the `[0]` index
raise (`none` here). -/
def extractOpenAIText (b : OpenAIBody) : Option String :=
  match b.choices with
  | none => some ""
  | some [] => none
  | some (c :: _) => some (pyStrip ((c.message.getD ⟨none⟩).content.getD ""))

/-! ## The persistent store

Two tables, from `initialize_database`.  Both primary keys are declared
`INTEGER PRIMARY KEY AUTOINCREMENT`: SQLite keeps the largest id ever
assigned in `sqlite_sequence` and each insert gets a strictly larger id,
which is never reused even after the row is deleted.  That counter is the
`nextReportId` / `nextSimId` field; `DELETE` does not touch it. -/

/-- A row of the `reports` table. -/
structure ReportRow where
  report_number : Nat
  report_text : String
  created_at : String
  world_description : String
deriving DecidableEq, Repr

/-- A row of the `simulations` table (`messages` is stored as JSON text;
we keep it decoded). -/
structure SimRow where
  simulation_id : Nat
  simulation_name : String
  messages : List Message
  created_at : String
  report_number : Nat
deriving DecidableEq, Repr

/-- The database `reports.db`. -/
structure Store where
  reports : List ReportRow
  sims : List SimRow
  nextReportId : Nat
  nextSimId : Nat
deriving DecidableEq, Repr

/-- A fresh database: AUTOINCREMENT ids start at 1. -/
def initStore : Store := ⟨[], [], 1, 1⟩

/-- The query `SELECT ... FROM reports WHERE report_number = ?` (primary key, so the
first match is the only match). -/
def findReport (st : Store) (n : Nat) : Option ReportRow :=
  st.reports.find? (fun r => r.report_number == n)

/-- The query `SELECT ... FROM simulations WHERE simulation_id = ?`. -/
def findSim (st : Store) (sid : Nat) : Option SimRow :=
  st.sims.find? (fun r => r.simulation_id == sid)

/-- From `save_report`: `INSERT INTO reports (report_text, created_at,
world_description) VALUES (?, ?, ?)`; the AUTOINCREMENT key assigns
`c.lastrowid`.  Returns the new store and the assigned report number. -/
def save_report (st : Store) (text now world : String) : Store × Nat :=
  let rid := st.nextReportId
  ({ st with
      reports := st.reports ++ [⟨rid, text, now, world⟩],
      nextReportId := rid + 1 }, rid)

/-- From `delete_report`, its database action: `DELETE FROM reports WHERE
report_number = ?`.  The companion export file `Report_<n>.txt` lives
outside the store.  The boolean is `c.rowcount != 0` (whether a row was
deleted).  The `simulations` table and the AUTOINCREMENT sequence are
untouched. -/
def delete_report (st : Store) (n : Nat) : Store × Bool :=
  let kept := st.reports.filter (fun r => r.report_number != n)
  ({ st with reports := kept }, kept.length != st.reports.length)

/-- From `create_simulation`: `INSERT INTO simulations (simulation_name,
messages, created_at, report_number) VALUES (?, ?, ?, ?)`; returns
`c.lastrowid`. -/
def create_simulation (st : Store) (name : String) (msgs : List Message)
    (now : String) (rn : Nat) : Store × Nat :=
  let sid := st.nextSimId
  ({ st with
      sims := st.sims ++ [⟨sid, name, msgs, now, rn⟩],
      nextSimId := sid + 1 }, sid)

/-- The row update performed by `save_simulation` on a matching row. -/
def updSim (sid : Nat) (msgs : List Message) (now : String) (r : SimRow) : SimRow :=
  if r.simulation_id = sid then { r with messages := msgs, created_at := now } else r

/-- From `save_simulation`: `UPDATE simulations SET messages = ?, created_at =
? WHERE simulation_id = ?` followed by `commit`.  The code never inspects
`rowcount`: an UPDATE matching zero rows commits normally and the
function returns exactly as on success. -/
def save_simulation (st : Store) (sid : Nat) (msgs : List Message) (now : String) : Store :=
  { st with sims := st.sims.map (updSim sid msgs now) }

/-- Modelled from the spec: `updateSimulationMessages(id, messages) ->
success | NotFound` — the spec's contract, which reports NotFound
(`none`) when no simulation with that id exists.  Written only to be
compared against `save_simulation`, the function the code actually has. -/
def updateSimulationMessages_spec (st : Store) (sid : Nat) (msgs : List Message)
    (now : String) : Option Store :=
  if (findSim st sid).isSome then some (save_simulation st sid msgs now) else none

/-- From `load_simulation`: `SELECT messages, report_number FROM simulations
WHERE simulation_id = ?`; raises (here `none`) when no row exists. -/
def load_simulation (st : Store) (sid : Nat) : Option (List Message × Nat) :=
  (findSim st sid).map (fun r => (r.messages, r.report_number))

/-- Outcome of the resume path of `explore_timeline_as_avatar` (choice
"2") up to and including the report lookup. -/
inductive ResumeLookup
  | simNotFound
  | reportNotFound (msgs : List Message) (rn : Nat)
  | ok (msgs : List Message) (rn : Nat) (world text : String)
deriving DecidableEq, Repr

/-- The resume path of `explore_timeline_as_avatar` (choice "2") up to
the interactive loop: `load_simulation` (raises, caught at the function
level, when the simulation id is absent), then `SELECT world_description,
report_text FROM reports WHERE report_number = ?` (prints "Associated
Report not found" and returns when absent).  This path only executes
SELECTs, so the store comes back as it went in. -/
def resume_lookup (st : Store) (sid : Nat) : Store × ResumeLookup :=
  match load_simulation st sid with
  | none => (st, .simNotFound)
  | some (msgs, rn) =>
    match findReport st rn with
    | none => (st, .reportNotFound msgs rn)
    | some rep => (st, .ok msgs rn rep.world_description rep.report_text)

/-! ## The interactive loop bodies

The environmental effects of one loop iteration are passed in as
parameters: the HTTP outcome of the completion call, the outcome of each
`save_simulation` call (the database either accepts the UPDATE or raises
`sqlite3.Error`), and the raw string the user types at the prompt. -/

/-- Outcome of `requests.post` + `raise_for_status` + `response.json()`:
a parsed 2xx body, an HTTPError, or any other exception. -/
inductive ApiResult (β : Type)
  | ok (body : β)
  | httpError
  | failure
deriving DecidableEq, Repr

/-- Outcome of one `save_simulation` call against the real database. -/
inductive SaveResult
  | ok
  | fail
deriving DecidableEq, Repr

/-- How one loop-body execution ends: `next` — the loop runs another
iteration; `halt` — `break`, the session ends normally; `raised` — an
exception propagates out of the `while` loop to the enclosing
`except` clause, ending the interactive loop. -/
inductive Control
  | next
  | halt
  | raised
deriving DecidableEq, Repr

/-- What one loop-body execution did: the in-memory `messages` list when
the body finished, how control left the body, the successive message
lists durably written by successful `save_simulation` calls, whether the
"Failed to save chat history" warning was printed, and whether the
"No response received" message was printed. -/
structure TurnOut where
  messages : List Message
  ctrl : Control
  persisted : List (List Message)
  warned : Bool
  noContent : Bool
deriving DecidableEq, Repr

/-- From `chat_with_chrono`: `if user_input.lower() in ['exit', 'quit']`. -/
def chatControlWords : List String := ["exit", "quit"]

/-- From `explore_timeline_as_avatar`: `if user_input.lower() in ['exit',
'quit', 'save']`. -/
def avatarControlWords : List String := ["exit", "quit", "save"]

/-- One iteration of the `while True` loop of `chat_with_chrono`: read
input (`Prompt.ask(...).strip()`), break on a control word, append the
user message, call the Anthropic API, `continue` on empty normalized
text, append the assistant message, and `save_simulation` inside a
`try/except` that prints a warning and lets the chat continue. -/
def chat_turn (msgs : List Message) (rawInput : String)
    (api : ApiResult AnthropicBody) (save : SaveResult) : TurnOut :=
  let input := pyStrip rawInput
  if pyLower input ∈ chatControlWords then
    ⟨msgs, .halt, [], false, false⟩
  else
    let msgs1 := msgs ++ [⟨"user", input⟩]
    match api with
    | .ok body =>
      let resp := extractAnthropicText body
      if resp = "" then ⟨msgs1, .next, [], false, true⟩
      else
        let msgs2 := msgs1 ++ [⟨"assistant", resp⟩]
        match save with
        | .ok => ⟨msgs2, .next, [msgs2], false, false⟩
        | .fail => ⟨msgs2, .next, [], true, false⟩
    | .httpError => ⟨msgs1, .raised, [], false, false⟩
    | .failure => ⟨msgs1, .raised, [], false, false⟩

/-- One iteration of the new-simulation loop of
`explore_timeline_as_avatar` (choice "1"): call the Anthropic API first,
`continue` on empty normalized text, append the narrator reply and
`save_simulation` (no `try` around it: a failure raises out of the
loop), then read input, break on a control word, append the user message
and `save_simulation` again (also unprotected). -/
def avatar_new_turn (msgs : List Message) (api : ApiResult AnthropicBody)
    (save1 : SaveResult) (rawInput : String) (save2 : SaveResult) : TurnOut :=
  match api with
  | .httpError => ⟨msgs, .raised, [], false, false⟩
  | .failure => ⟨msgs, .raised, [], false, false⟩
  | .ok body =>
    let resp := extractAnthropicText body
    if resp = "" then ⟨msgs, .next, [], false, true⟩
    else
      let msgs1 := msgs ++ [⟨"assistant", resp⟩]
      match save1 with
      | .fail => ⟨msgs1, .raised, [], false, false⟩
      | .ok =>
        let input := pyStrip rawInput
        if pyLower input ∈ avatarControlWords then ⟨msgs1, .halt, [msgs1], false, false⟩
        else
          let msgs2 := msgs1 ++ [⟨"user", input⟩]
          match save2 with
          | .fail => ⟨msgs2, .raised, [msgs1], false, false⟩
          | .ok => ⟨msgs2, .next, [msgs1, msgs2], false, false⟩

/-- One iteration of the resumed-simulation loop of
`explore_timeline_as_avatar` (choice "2"), identical in shape to the new
loop but calling the OpenAI API ( `extractOpenAIText` returning `none`
is the IndexError of `choices[0]` on an empty list, which raises). -/
def avatar_resume_turn (msgs : List Message) (api : ApiResult OpenAIBody)
    (save1 : SaveResult) (rawInput : String) (save2 : SaveResult) : TurnOut :=
  match api with
  | .httpError => ⟨msgs, .raised, [], false, false⟩
  | .failure => ⟨msgs, .raised, [], false, false⟩
  | .ok body =>
    match extractOpenAIText body with
    | none => ⟨msgs, .raised, [], false, false⟩
    | some resp =>
      if resp = "" then ⟨msgs, .next, [], false, true⟩
      else
        let msgs1 := msgs ++ [⟨"assistant", resp⟩]
        match save1 with
        | .fail => ⟨msgs1, .raised, [], false, false⟩
        | .ok =>
          let input := pyStrip rawInput
          if pyLower input ∈ avatarControlWords then ⟨msgs1, .halt, [msgs1], false, false⟩
          else
            let msgs2 := msgs1 ++ [⟨"user", input⟩]
            match save2 with
            | .fail => ⟨msgs2, .raised, [msgs1], false, false⟩
            | .ok => ⟨msgs2, .next, [msgs1, msgs2], false, false⟩

/-! ## Wire framing -/

/-- The `messages` array of the OpenAI payload built by the resumed
loop:

    "messages": [
        {"role": "system", "content": system_prompt + "\n\n" + assistant_context},
        *messages
    ]
-/
def openai_resume_wire (system_prompt assistant_context : String)
    (msgs : List Message) : List Message :=
  ⟨"system", system_prompt ++ "\n\n" ++ assistant_context⟩ :: msgs

/-! ## Session starts -/

/-- The seed history of a fresh Chrono chat:

    messages = [{"role": "user", "content":
        f"I would like to discuss Report #{report_number}. Here is the report:\n\n{report_text}"}]
-/
def chat_initial_messages (rn : Nat) (report_text : String) : List Message :=
  [⟨"user", "I would like to discuss Report #" ++ toString rn
      ++ ". Here is the report:\n\n" ++ report_text⟩]

/-- The seed history of a fresh avatar exploration:

    messages = [{"role": "user", "content": "I am ready to begin the simulation."}]
-/
def avatar_initial_messages : List Message :=
  [⟨"user", "I am ready to begin the simulation."⟩]

/-- The avatar flows' `assistant_context`, appended to the system prompt
(this — not the seed user message — is where the report narrative
travels in the avatar flows). -/
def avatar_assistant_context (world_description report_text : String) : String :=
  "World Description:\n" ++ world_description
    ++ "\n\nDivergent Timeline Report:\n" ++ report_text

/-- The fresh-session branch of `chat_with_chrono`: seed the history and
`create_simulation` immediately, before the interactive loop makes any
completion call. -/
def chat_start_new (st : Store) (rn : Nat) (report_text now : String) : Store × Nat :=
  create_simulation st ("chrono_chat_report_" ++ toString rn)
    (chat_initial_messages rn report_text) now rn

/-- The new-simulation branch of `explore_timeline_as_avatar`: seed the
history and `create_simulation` immediately, before the loop's first
completion call. -/
def avatar_start_new (st : Store) (name : String) (rn : Nat) (now : String) : Store × Nat :=
  create_simulation st name avatar_initial_messages now rn

/-! ## Report-id assignment over arbitrary operation sequences -/

/-- The store operations that touch the `reports` table. -/
inductive StoreOp
  | createReport (text now world : String)
  | deleteReport (n : Nat)
deriving DecidableEq, Repr

/-- Apply one operation; a creation reports the id it assigned. -/
def applyOp (st : Store) : StoreOp → Store × Option Nat
  | .createReport t now w =>
    let p := save_report st t now w
    (p.1, some p.2)
  | .deleteReport n => ((delete_report st n).1, none)

/-- Run a sequence of operations, collecting the assigned report ids in
order of assignment. -/
def runOps (st : Store) : List StoreOp → Store × List Nat
  | [] => (st, [])
  | op :: ops =>
    let p := applyOp st op
    let q := runOps p.1 ops
    (q.1, p.2.toList ++ q.2)

/-! ## Helper lemmas -/

/-- After `DELETE ... WHERE report_number = n`, no lookup of `n` in the
remaining rows can succeed. -/
theorem findReport_after_filter (l : List ReportRow) (n : Nat) :
    (l.filter (fun r => r.report_number != n)).find? (fun r => r.report_number == n)
      = none := by
  induction l with
  | nil => rfl
  | cons a t ih =>
    by_cases h : a.report_number = n
    · simp [List.filter_cons, h, ih]
    · simp [List.filter_cons, List.find?_cons, h, ih]

/-- The map `updSim` never changes a row's primary key. -/
theorem updSim_id (sid : Nat) (msgs : List Message) (now : String) (r : SimRow) :
    (updSim sid msgs now r).simulation_id = r.simulation_id := by
  unfold updSim
  by_cases h : r.simulation_id = sid <;> simp [h]

/-- Lookup by primary key commutes with the `save_simulation` row map. -/
theorem find?_map_updSim (l : List SimRow) (sid : Nat) (msgs : List Message) (now : String) :
    (l.map (updSim sid msgs now)).find? (fun r => r.simulation_id == sid)
      = (l.find? (fun r => r.simulation_id == sid)).map (updSim sid msgs now) := by
  induction l with
  | nil => rfl
  | cons a t ih =>
    by_cases h : a.simulation_id = sid
    · simp [List.find?_cons, updSim_id, h, ih]
    · simp [List.find?_cons, updSim_id, h, ih]

/-- Report-id monotonicity invariant: over any operation sequence, the
assigned ids are pairwise strictly increasing and bounded below by the
starting counter. -/
theorem runOps_ids_increasing (ops : List StoreOp) (st : Store) :
    List.Pairwise (· < ·) (runOps st ops).2
      ∧ ∀ i ∈ (runOps st ops).2, st.nextReportId ≤ i := by
  induction ops generalizing st with
  | nil => simp [runOps]
  | cons op t ih =>
    cases op with
    | createReport a now w =>
      obtain ⟨hp, hb⟩ := ih (save_report st a now w).1
      have hnext : (save_report st a now w).1.nextReportId = st.nextReportId + 1 := rfl
      have hid : (save_report st a now w).2 = st.nextReportId := rfl
      constructor
      · refine List.Pairwise.cons ?_ hp
        intro j hj
        have := hb j hj
        rw [hnext] at this
        rw [hid]
        omega
      · intro i hi
        rcases List.mem_cons.mp hi with h | h
        · rw [h, hid]
        · have := hb i h
          rw [hnext] at this
          omega
    | deleteReport n =>
      obtain ⟨hp, hb⟩ := ih ((delete_report st n).1)
      have hnext : ((delete_report st n).1).nextReportId = st.nextReportId := rfl
      refine ⟨hp, ?_⟩
      intro i hi
      have := hb i hi
      rw [hnext] at this
      exact this

/-! ## Claim theorems -/

/-- C1: deleting a report removes only the matching `reports` row and
leaves every `simulations` row (and the id counter) untouched; resuming
a simulation that references the deleted report then passes the
simulation-lookup step, fails with not-found at the report-lookup step,
and hands the store back unmodified. -/
theorem delete_report_then_resume_not_found (st : Store) (n sid : Nat) (sim : SimRow)
    (hsim : findSim st sid = some sim) (hrn : sim.report_number = n) :
    ((delete_report st n).1.sims = st.sims
      ∧ (delete_report st n).1.reports = st.reports.filter (fun r => r.report_number != n)
      ∧ (delete_report st n).1.nextReportId = st.nextReportId)
      ∧ resume_lookup (delete_report st n).1 sid
          = ((delete_report st n).1, ResumeLookup.reportNotFound sim.messages n) := by
  refine ⟨⟨rfl, rfl, rfl⟩, ?_⟩
  subst hrn
  have hsim' : findSim (delete_report st sim.report_number).1 sid = some sim := hsim
  have hrep : findReport (delete_report st sim.report_number).1 sim.report_number = none :=
    findReport_after_filter st.reports sim.report_number
  simp [resume_lookup, load_simulation, hsim', hrep]

/-- A concrete store: one report (id 1) and one simulation (id 1)
referencing it. -/
def wStore : Store :=
  { reports := [⟨1, "the report text", "t0", "the world"⟩],
    sims := [⟨1, "sim one", [⟨"user", "seed"⟩], "t1", 1⟩],
    nextReportId := 2,
    nextSimId := 2 }

/-- Witness for C1 at `wStore`: delete report 1, then resume simulation 1. -/
theorem delete_report_then_resume_not_found_witness :
    ((delete_report wStore 1).1.sims = wStore.sims
      ∧ (delete_report wStore 1).1.reports
          = wStore.reports.filter (fun r => r.report_number != 1)
      ∧ (delete_report wStore 1).1.nextReportId = wStore.nextReportId)
      ∧ resume_lookup (delete_report wStore 1).1 1
          = ((delete_report wStore 1).1, ResumeLookup.reportNotFound [⟨"user", "seed"⟩] 1) :=
  delete_report_then_resume_not_found wStore 1 1 ⟨1, "sim one", [⟨"user", "seed"⟩], "t1", 1⟩
    (by decide) (by decide)

/-- C6: report ids are assigned by a monotonic counter.  Over every
sequence of report creations and deletions from a fresh database, the
assigned ids are pairwise strictly increasing (each new id exceeds every
id ever assigned before, so no id is ever reused), and deleting a report
never moves the counter back. -/
theorem report_ids_monotonic (ops : List StoreOp) :
    List.Pairwise (· < ·) (runOps initStore ops).2
      ∧ ∀ (st : Store) (n : Nat), ((delete_report st n).1).nextReportId = st.nextReportId :=
  ⟨(runOps_ids_increasing ops initStore).1, fun _ _ => rfl⟩

/-- C5 (amended): `save_simulation` fully replaces the stored message
list and refreshes the timestamp when the simulation exists; when it
does not exist the UPDATE matches nothing and the call returns normally
with the store unchanged — no NotFound is ever reported. -/
theorem save_simulation_replaces_or_silently_ignores (st : Store) (sid : Nat)
    (msgs : List Message) (now : String) :
    (findSim st sid = none → save_simulation st sid msgs now = st)
      ∧ ∀ sim, findSim st sid = some sim →
        findSim (save_simulation st sid msgs now) sid
          = some { sim with messages := msgs, created_at := now } := by
  constructor
  · intro hnone
    have hall := List.find?_eq_none.mp hnone
    have hmap : st.sims.map (updSim sid msgs now) = st.sims := by
      have : ∀ r ∈ st.sims, updSim sid msgs now r = id r := by
        intro r hr
        have : ¬ r.simulation_id = sid := by
          have := hall r hr
          simpa using this
        simp [updSim, this]
      rw [List.map_congr_left this, List.map_id]
    unfold save_simulation
    rw [hmap]
  · intro sim hsome
    have hid : sim.simulation_id = sid := by
      have := List.find?_some hsome
      simpa using this
    unfold save_simulation findSim
    simp only
    rw [find?_map_updSim]
    unfold findSim at hsome
    rw [hsome]
    simp [updSim, hid]

/-- A concrete store with a single simulation, id 1 (no simulation 5). -/
def c5Store : Store :=
  { reports := [], sims := [⟨1, "s", [], "t0", 1⟩], nextReportId := 1, nextSimId := 2 }

/-- Witness for C5 (amended) at `c5Store`: updating missing id 5 leaves
the store unchanged; updating existing id 1 fully replaces its messages
and refreshes its timestamp. -/
theorem save_simulation_replaces_or_silently_ignores_witness :
    save_simulation c5Store 5 [⟨"user", "x"⟩] "t1" = c5Store
      ∧ findSim (save_simulation c5Store 1 [⟨"user", "x"⟩] "t1") 1
          = some ⟨1, "s", [⟨"user", "x"⟩], "t1", 1⟩ := by
  refine ⟨(save_simulation_replaces_or_silently_ignores c5Store 5 [⟨"user", "x"⟩] "t1").1
      (by decide), ?_⟩
  have h := (save_simulation_replaces_or_silently_ignores c5Store 1
      [⟨"user", "x"⟩] "t1").2 ⟨1, "s", [], "t0", 1⟩ (by decide)
  simpa using h

/-- Counterexample to C5 as stated: with no simulation 5 in the store,
`save_simulation` does not report NotFound — it returns normally with
the store unchanged, while the spec-modelled contract
`updateSimulationMessages_spec` reports NotFound (`none`) there. -/
theorem save_simulation_no_notfound_counterexample :
    findSim c5Store 5 = none
      ∧ save_simulation c5Store 5 [⟨"user", "x"⟩] "t1" = c5Store
      ∧ updateSimulationMessages_spec c5Store 5 [⟨"user", "x"⟩] "t1" = none := by
  decide

/-- The `for` loop of the Anthropic normalization, run from any
accumulator, appends exactly the claim-level concatenation. -/
theorem anthropic_foldl_eq_concat (blocks : List ContentBlock) (acc : String) :
    blocks.foldl
        (fun a item => if item.btype = some "text" then a ++ item.btext.getD "" else a) acc
      = acc ++ claimConcatBlocks blocks := by
  induction blocks generalizing acc with
  | nil => simp [claimConcatBlocks]
  | cons b t ih =>
    by_cases h : b.btype = some "text"
    · simp [claimConcatBlocks, h, ih, String.append_assoc]
    · simp [claimConcatBlocks, h, ih]

/-- C3 (amended): Backend A normalization concatenates the `text` fields
of the `type = "text"` blocks in order, skipping all other blocks, and
then strips leading and trailing whitespace from the concatenation; the
spec's example blocks normalize to exactly `"Hello, world."`. -/
theorem anthropic_normalization_is_stripped_concat (b : AnthropicBody) :
    extractAnthropicText b = pyStrip (claimConcatBlocks (b.content.getD []))
      ∧ extractAnthropicText
          ⟨some [⟨some "text", some "Hello, "⟩, ⟨some "other", none⟩,
            ⟨some "text", some "world."⟩]⟩ = "Hello, world." := by
  constructor
  · unfold extractAnthropicText
    rw [anthropic_foldl_eq_concat]
    rw [String.empty_append]
  · decide

/-- Counterexample to C3 as stated: on the block list
`[{type:"text", text:" Hello"}]` the code's normalization yields
`"Hello"` (the final `strip()`), not the plain concatenation
`" Hello"`. -/
theorem anthropic_normalization_strips_counterexample :
    extractAnthropicText ⟨some [⟨some "text", some " Hello"⟩]⟩ = "Hello"
      ∧ claimConcatBlocks [⟨some "text", some " Hello"⟩] = " Hello"
      ∧ extractAnthropicText ⟨some [⟨some "text", some " Hello"⟩]⟩
          ≠ claimConcatBlocks [⟨some "text", some " Hello"⟩] := by
  decide

/-- C4: a well-formed completion response that normalizes to the empty
string is a soft failure in all three loops: the "no content" condition
is reported, no message is appended beyond what the turn had already
appended before the call (in the chat loop, only the user's own input),
nothing is persisted, and control stays in the loop (`next`). -/
theorem empty_response_soft_failure (msgs : List Message) (raw raw2 : String)
    (bodyA : AnthropicBody) (bodyB : OpenAIBody) (save s1 s2 : SaveResult)
    (hnc : pyLower (pyStrip raw) ∉ chatControlWords)
    (hA : extractAnthropicText bodyA = "")
    (hB : extractOpenAIText bodyB = some "") :
    chat_turn msgs raw (.ok bodyA) save
        = ⟨msgs ++ [⟨"user", pyStrip raw⟩], .next, [], false, true⟩
      ∧ avatar_new_turn msgs (.ok bodyA) s1 raw2 s2 = ⟨msgs, .next, [], false, true⟩
      ∧ avatar_resume_turn msgs (.ok bodyB) s1 raw2 s2 = ⟨msgs, .next, [], false, true⟩ := by
  refine ⟨?_, ?_, ?_⟩
  · simp [chat_turn, hnc, hA]
  · simp [avatar_new_turn, hA]
  · simp [avatar_resume_turn, hB]

/-- Witness for C4: a body whose `content` key is missing normalizes to
`""` on Backend A, and a body whose `choices` key is missing normalizes
to `""` on Backend B. -/
theorem empty_response_soft_failure_witness :
    chat_turn [] "hi" (.ok ⟨none⟩) .ok
        = ⟨[⟨"user", "hi"⟩], .next, [], false, true⟩
      ∧ avatar_new_turn [] (.ok ⟨none⟩) .ok "go" .ok = ⟨[], .next, [], false, true⟩
      ∧ avatar_resume_turn [] (.ok ⟨none⟩) .ok "go" .ok = ⟨[], .next, [], false, true⟩ :=
  empty_response_soft_failure [] "hi" "go" ⟨none⟩ ⟨none⟩ .ok .ok .ok
    (by decide) (by decide) (by decide)

/-- C2 (amended): when persisting the appended messages fails, the
in-memory append is retained in every flow, but only the chat loop
treats the failure as a non-fatal warning and keeps going; in both
avatar-exploration loops the `save_simulation` exception propagates out
of the `while` loop and ends the interactive session. -/
theorem persist_failure_tolerated_only_in_chat (msgs : List Message) (raw raw2 : String)
    (bodyA : AnthropicBody) (bodyB : OpenAIBody) (rA rB : String) (s2 : SaveResult)
    (hnc : pyLower (pyStrip raw) ∉ chatControlWords)
    (hnc2 : pyLower (pyStrip raw2) ∉ avatarControlWords)
    (hA : extractAnthropicText bodyA = rA) (hrA : rA ≠ "")
    (hB : extractOpenAIText bodyB = some rB) (hrB : rB ≠ "") :
    chat_turn msgs raw (.ok bodyA) .fail
        = ⟨(msgs ++ [⟨"user", pyStrip raw⟩]) ++ [⟨"assistant", rA⟩], .next, [], true, false⟩
      ∧ avatar_new_turn msgs (.ok bodyA) .fail raw2 s2
        = ⟨msgs ++ [⟨"assistant", rA⟩], .raised, [], false, false⟩
      ∧ avatar_new_turn msgs (.ok bodyA) .ok raw2 .fail
        = ⟨(msgs ++ [⟨"assistant", rA⟩]) ++ [⟨"user", pyStrip raw2⟩], .raised,
            [msgs ++ [⟨"assistant", rA⟩]], false, false⟩
      ∧ avatar_resume_turn msgs (.ok bodyB) .fail raw2 s2
        = ⟨msgs ++ [⟨"assistant", rB⟩], .raised, [], false, false⟩ := by
  subst hA
  refine ⟨?_, ?_, ?_, ?_⟩
  · simp [chat_turn, hnc, hrA]
  · simp [avatar_new_turn, hrA]
  · simp [avatar_new_turn, hrA, hnc2]
  · simp [avatar_resume_turn, hB, hrB]

/-- Witness for C2 (amended) at concrete bodies and inputs. -/
theorem persist_failure_tolerated_only_in_chat_witness :
    chat_turn [] "hi" (.ok ⟨some [⟨some "text", some "hello"⟩]⟩) .fail
        = ⟨[⟨"user", "hi"⟩, ⟨"assistant", "hello"⟩], .next, [], true, false⟩
      ∧ avatar_new_turn [] (.ok ⟨some [⟨some "text", some "hello"⟩]⟩) .fail "go" .ok
        = ⟨[⟨"assistant", "hello"⟩], .raised, [], false, false⟩
      ∧ avatar_new_turn [] (.ok ⟨some [⟨some "text", some "hello"⟩]⟩) .ok "go" .fail
        = ⟨[⟨"assistant", "hello"⟩, ⟨"user", "go"⟩], .raised,
            [[⟨"assistant", "hello"⟩]], false, false⟩
      ∧ avatar_resume_turn [] (.ok ⟨some [⟨some ⟨some "hello"⟩⟩]⟩) .fail "go" .ok
        = ⟨[⟨"assistant", "hello"⟩], .raised, [], false, false⟩ :=
  persist_failure_tolerated_only_in_chat [] "hi" "go"
    ⟨some [⟨some "text", some "hello"⟩]⟩ ⟨some [⟨some ⟨some "hello"⟩⟩]⟩ "hello" "hello" .ok
    (by decide) (by decide) (by decide) (by decide) (by decide) (by decide)

/-- Counterexample to C2 as stated: in the avatar-exploration loop a
persistence failure does not leave the loop running with a warning — the
body ends with a propagating exception (`raised`), not `next`, and no
warning is printed. -/
theorem avatar_persist_failure_ends_loop_counterexample :
    (avatar_new_turn [] (.ok ⟨some [⟨some "text", some "hello"⟩]⟩) .fail "go" .ok).ctrl
        = Control.raised
      ∧ (avatar_new_turn [] (.ok ⟨some [⟨some "text", some "hello"⟩]⟩) .fail "go" .ok).ctrl
        ≠ Control.next
      ∧ (avatar_new_turn [] (.ok ⟨some [⟨some "text", some "hello"⟩]⟩) .fail "go" .ok).warned
        = false := by
  decide

/-- C10: user input that case-insensitively matches a termination
control word ends each loop without being appended and without any
further store write: the chat loop breaks with the history and the
persisted snapshots of the turn untouched, and the avatar loops break
right after the already-persisted narrator reply, whose snapshot equals
the final in-memory history. -/
theorem control_word_ends_loop_without_append (msgs1 msgs2 msgs3 : List Message)
    (raw1 raw2 raw3 : String) (api1 : ApiResult AnthropicBody) (s1 s2 s3 : SaveResult)
    (bodyA : AnthropicBody) (bodyB : OpenAIBody) (rA rB : String)
    (h1 : pyLower (pyStrip raw1) ∈ chatControlWords)
    (h2 : pyLower (pyStrip raw2) ∈ avatarControlWords)
    (h3 : pyLower (pyStrip raw3) ∈ avatarControlWords)
    (hA : extractAnthropicText bodyA = rA) (hrA : rA ≠ "")
    (hB : extractOpenAIText bodyB = some rB) (hrB : rB ≠ "") :
    chat_turn msgs1 raw1 api1 s1 = ⟨msgs1, .halt, [], false, false⟩
      ∧ avatar_new_turn msgs2 (.ok bodyA) .ok raw2 s2
        = ⟨msgs2 ++ [⟨"assistant", rA⟩], .halt, [msgs2 ++ [⟨"assistant", rA⟩]], false, false⟩
      ∧ avatar_resume_turn msgs3 (.ok bodyB) .ok raw3 s3
        = ⟨msgs3 ++ [⟨"assistant", rB⟩], .halt, [msgs3 ++ [⟨"assistant", rB⟩]], false, false⟩ := by
  subst hA
  refine ⟨?_, ?_, ?_⟩
  · simp [chat_turn, h1]
  · simp [avatar_new_turn, hrA, h2]
  · simp [avatar_resume_turn, hB, hrB, h3]

/-- Witness for C10, with mixed-case padded input `"  QuIt "` to
exercise the strip and the case-insensitive match. -/
theorem control_word_ends_loop_without_append_witness :
    chat_turn [⟨"user", "seed"⟩] "  QuIt " (.ok ⟨none⟩) .ok
        = ⟨[⟨"user", "seed"⟩], .halt, [], false, false⟩
      ∧ avatar_new_turn [] (.ok ⟨some [⟨some "text", some "hello"⟩]⟩) .ok "  QuIt " .ok
        = ⟨[⟨"assistant", "hello"⟩], .halt, [[⟨"assistant", "hello"⟩]], false, false⟩
      ∧ avatar_resume_turn [] (.ok ⟨some [⟨some ⟨some "hello"⟩⟩]⟩) .ok "SAVE" .ok
        = ⟨[⟨"assistant", "hello"⟩], .halt, [[⟨"assistant", "hello"⟩]], false, false⟩ :=
  control_word_ends_loop_without_append [⟨"user", "seed"⟩] [] [] "  QuIt " "  QuIt " "SAVE"
    (.ok ⟨none⟩) .ok .ok .ok ⟨some [⟨some "text", some "hello"⟩]⟩
    ⟨some [⟨some ⟨some "hello"⟩⟩]⟩ "hello" "hello"
    (by decide) (by decide) (by decide) (by decide) (by decide) (by decide) (by decide)

/-- C9: in both avatar loops a successful completion has its reply
appended and persisted first — the first persisted snapshot is
`history ++ [assistant reply]` whatever the user later types — so
resuming a history that already ends with an assistant message places
two assistant messages back to back (positions `|history| - 1` and
`|history|`). -/
theorem resume_appends_consecutive_assistant (msgs : List Message) (lastM : Message)
    (bodyA : AnthropicBody) (bodyB : OpenAIBody) (rA rB : String)
    (hA : extractAnthropicText bodyA = rA) (hrA : rA ≠ "")
    (hB : extractOpenAIText bodyB = some rB) (hrB : rB ≠ "")
    (hlast : msgs.getLast? = some lastM) (hrole : lastM.role = "assistant") :
    (∀ (raw : String) (s2 : SaveResult),
        (avatar_new_turn msgs (.ok bodyA) .ok raw s2).persisted.head?
          = some (msgs ++ [⟨"assistant", rA⟩]))
      ∧ (∀ (raw : String) (s2 : SaveResult),
        (avatar_resume_turn msgs (.ok bodyB) .ok raw s2).persisted.head?
          = some (msgs ++ [⟨"assistant", rB⟩]))
      ∧ (msgs ++ [⟨"assistant", rB⟩])[msgs.length - 1]? = some lastM
      ∧ lastM.role = "assistant"
      ∧ (msgs ++ [⟨"assistant", rB⟩])[msgs.length]? = some ⟨"assistant", rB⟩ := by
  subst hA
  have hne : msgs ≠ [] := by
    intro h
    rw [h] at hlast
    simp at hlast
  have hlen : 0 < msgs.length := List.length_pos.mpr hne
  refine ⟨?_, ?_, ?_, hrole, ?_⟩
  · intro raw s2
    by_cases hc : pyLower (pyStrip raw) ∈ avatarControlWords
    · simp [avatar_new_turn, hrA, hc]
    · cases s2 <;> simp [avatar_new_turn, hrA, hc]
  · intro raw s2
    by_cases hc : pyLower (pyStrip raw) ∈ avatarControlWords
    · simp [avatar_resume_turn, hB, hrB, hc]
    · cases s2 <;> simp [avatar_resume_turn, hB, hrB, hc]
  · rw [List.getElem?_append_left (by omega)]
    rw [← List.getLast?_eq_getElem?]
    exact hlast
  · exact List.getElem?_concat_length msgs ⟨"assistant", rB⟩

/-- Witness for C9: a stored history already ending with an assistant
message, continued through both avatar loop bodies. -/
theorem resume_appends_consecutive_assistant_witness :
    (∀ (raw : String) (s2 : SaveResult),
        (avatar_new_turn [⟨"user", "seed"⟩, ⟨"assistant", "story"⟩]
            (.ok ⟨some [⟨some "text", some "more"⟩]⟩) .ok raw s2).persisted.head?
          = some [⟨"user", "seed"⟩, ⟨"assistant", "story"⟩, ⟨"assistant", "more"⟩])
      ∧ (∀ (raw : String) (s2 : SaveResult),
        (avatar_resume_turn [⟨"user", "seed"⟩, ⟨"assistant", "story"⟩]
            (.ok ⟨some [⟨some ⟨some "more"⟩⟩]⟩) .ok raw s2).persisted.head?
          = some [⟨"user", "seed"⟩, ⟨"assistant", "story"⟩, ⟨"assistant", "more"⟩])
      ∧ ([⟨"user", "seed"⟩, ⟨"assistant", "story"⟩]
            ++ [(⟨"assistant", "more"⟩ : Message)])[1]? = some ⟨"assistant", "story"⟩
      ∧ (Message.mk "assistant" "story").role = "assistant"
      ∧ ([⟨"user", "seed"⟩, ⟨"assistant", "story"⟩]
            ++ [(⟨"assistant", "more"⟩ : Message)])[2]? = some ⟨"assistant", "more"⟩ :=
  resume_appends_consecutive_assistant [⟨"user", "seed"⟩, ⟨"assistant", "story"⟩]
    ⟨"assistant", "story"⟩ ⟨some [⟨some "text", some "more"⟩]⟩ ⟨some [⟨some ⟨some "more"⟩⟩]⟩
    "more" "more" (by decide) (by decide) (by decide) (by decide) (by decide) (by decide)

/-- Every snapshot the resumed-avatar loop body passes to a successful
`save_simulation` extends the prior history with messages whose role is
`"assistant"` or `"user"`. -/
theorem avatar_resume_persisted_extends (msgs : List Message) (api : ApiResult OpenAIBody)
    (s1 : SaveResult) (raw : String) (s2 : SaveResult) :
    ∀ snap ∈ (avatar_resume_turn msgs api s1 raw s2).persisted,
      ∃ t, snap = msgs ++ t ∧ ∀ m ∈ t, m.role = "assistant" ∨ m.role = "user" := by
  cases api with
  | httpError => simp [avatar_resume_turn]
  | failure => simp [avatar_resume_turn]
  | ok body =>
    cases hex : extractOpenAIText body with
    | none => simp [avatar_resume_turn, hex]
    | some resp =>
      by_cases hr : resp = ""
      · simp [avatar_resume_turn, hex, hr]
      · cases s1 with
        | fail => simp [avatar_resume_turn, hex, hr]
        | ok =>
          by_cases hc : pyLower (pyStrip raw) ∈ avatarControlWords
          · simp only [avatar_resume_turn, hex, hr, hc]
            intro snap hsnap
            simp at hsnap
            refine ⟨[⟨"assistant", resp⟩], by simp [hsnap], ?_⟩
            intro m hm
            simp at hm
            left
            rw [hm]
          · cases s2 with
            | fail =>
              simp only [avatar_resume_turn, hex, hr, hc]
              intro snap hsnap
              simp at hsnap
              refine ⟨[⟨"assistant", resp⟩], by simp [hsnap], ?_⟩
              intro m hm
              simp at hm
              left
              rw [hm]
            | ok =>
              simp only [avatar_resume_turn, hex, hr, hc]
              intro snap hsnap
              simp at hsnap
              rcases hsnap with h | h
              · refine ⟨[⟨"assistant", resp⟩], by simp [h], ?_⟩
                intro m hm
                simp at hm
                left
                rw [hm]
              · refine ⟨[⟨"assistant", resp⟩, ⟨"user", pyStrip raw⟩], by simp [h], ?_⟩
                intro m hm
                simp at hm
                rcases hm with hm | hm
                · left
                  rw [hm]
                · right
                  rw [hm]

/-- C8: continuing a Backend-A-started session against Backend B passes
the stored history unchanged (the wire message array is exactly the
system message followed by the stored messages), and every snapshot the
loop persists keeps the prior messages as an unchanged prefix and never
contains a system-role message (given the stored history has none). -/
theorem backend_switch_preserves_history (sys ctx raw : String) (msgs : List Message)
    (api : ApiResult OpenAIBody) (s1 s2 : SaveResult)
    (hns : ∀ m ∈ msgs, m.role ≠ "system") :
    openai_resume_wire sys ctx msgs = ⟨"system", sys ++ "\n\n" ++ ctx⟩ :: msgs
      ∧ (openai_resume_wire sys ctx msgs).drop 1 = msgs
      ∧ ∀ snap ∈ (avatar_resume_turn msgs api s1 raw s2).persisted,
          (∃ t, snap = msgs ++ t) ∧ ∀ m ∈ snap, m.role ≠ "system" := by
  refine ⟨rfl, rfl, ?_⟩
  intro snap hsnap
  obtain ⟨t, hteq, htr⟩ := avatar_resume_persisted_extends msgs api s1 raw s2 snap hsnap
  refine ⟨⟨t, hteq⟩, ?_⟩
  intro m hm
  rw [hteq] at hm
  rcases List.mem_append.mp hm with h | h
  · exact hns m h
  · rcases htr m h with hr | hr <;> rw [hr] <;> decide

/-- Witness for C8 at a concrete resumed turn that persists twice. -/
theorem backend_switch_preserves_history_witness :
    openai_resume_wire "narrate" "world" [⟨"user", "seed"⟩, ⟨"assistant", "story"⟩]
        = ⟨"system", "narrate" ++ "\n\n" ++ "world"⟩
            :: [⟨"user", "seed"⟩, ⟨"assistant", "story"⟩]
      ∧ (openai_resume_wire "narrate" "world"
            [⟨"user", "seed"⟩, ⟨"assistant", "story"⟩]).drop 1
          = [⟨"user", "seed"⟩, ⟨"assistant", "story"⟩]
      ∧ ∀ snap ∈ (avatar_resume_turn [⟨"user", "seed"⟩, ⟨"assistant", "story"⟩]
            (.ok ⟨some [⟨some ⟨some "more"⟩⟩]⟩) .ok "look around" .ok).persisted,
          (∃ t, snap = [⟨"user", "seed"⟩, ⟨"assistant", "story"⟩] ++ t)
            ∧ ∀ m ∈ snap, m.role ≠ "system" :=
  backend_switch_preserves_history "narrate" "world" "look around"
    [⟨"user", "seed"⟩, ⟨"assistant", "story"⟩] (.ok ⟨some [⟨some ⟨some "more"⟩⟩]⟩) .ok .ok
    (by decide)

/-! ## Substring containment (for "embeds the narrative") -/

/-- Whether the first list is an initial segment of the second. -/
def startsWithChars : List Char → List Char → Bool
  | [], _ => true
  | _ :: _, [] => false
  | p :: ps, c :: cs => p == c && startsWithChars ps cs

/-- Whether `pat` occurs contiguously anywhere in the list. -/
def containsChars (pat : List Char) : List Char → Bool
  | [] => startsWithChars pat []
  | c :: t => startsWithChars pat (c :: t) || containsChars pat t

/-- Whether `s` contains `pat` as a contiguous substring. -/
def strContainsStr (s pat : String) : Bool :=
  containsChars pat.data s.data

theorem startsWithChars_self (l : List Char) : startsWithChars l l = true := by
  induction l with
  | nil => rfl
  | cons c t ih => simp [startsWithChars, ih]

theorem containsChars_append_self (pat a : List Char) :
    containsChars pat (a ++ pat) = true := by
  induction a with
  | nil =>
    cases pat with
    | nil => rfl
    | cons c t => simp [containsChars, startsWithChars_self]
  | cons c t ih => simp [containsChars, ih]

/-- A string of the form `pre ++ pat` contains `pat`. -/
theorem strContainsStr_append_self (pre pat : String) :
    strContainsStr (pre ++ pat) pat = true := by
  unfold strContainsStr
  rw [String.data_append]
  exact containsChars_append_self pat.data pre.data

/-- Looking up the row `create_simulation` just inserted finds exactly
that row, provided existing ids are below the AUTOINCREMENT counter
(which every store reachable from `initStore` satisfies). -/
theorem findSim_create (st : Store) (name : String) (msgs : List Message) (now : String)
    (rn : Nat) (hwf : ∀ r ∈ st.sims, r.simulation_id < st.nextSimId) :
    findSim (create_simulation st name msgs now rn).1 (create_simulation st name msgs now rn).2
      = some ⟨st.nextSimId, name, msgs, now, rn⟩ := by
  unfold findSim create_simulation
  simp only
  rw [List.find?_append]
  have h1 : st.sims.find? (fun r => r.simulation_id == st.nextSimId) = none := by
    rw [List.find?_eq_none]
    intro x hx
    simp only [beq_iff_eq]
    exact Nat.ne_of_lt (hwf x hx)
  rw [h1]
  simp

/-- C7 (amended): both fresh-session flows seed the history with a
single user-role message and persist it via `create_simulation` at once,
before the loop's first completion call; the chat flow's seed message
embeds the report narrative, while the avatar flow's seed message is the
fixed sentence "I am ready to begin the simulation." — there the
narrative travels in the system-prompt context instead. -/
theorem fresh_session_seeded_and_persisted (st : Store) (rn : Nat) (rt now name wd : String)
    (hwf : ∀ r ∈ st.sims, r.simulation_id < st.nextSimId) :
    findSim (chat_start_new st rn rt now).1 (chat_start_new st rn rt now).2
        = some ⟨st.nextSimId, "chrono_chat_report_" ++ toString rn,
            chat_initial_messages rn rt, now, rn⟩
      ∧ (chat_initial_messages rn rt).map Message.role = ["user"]
      ∧ strContainsStr ((chat_initial_messages rn rt).headD default).content rt = true
      ∧ findSim (avatar_start_new st name rn now).1 (avatar_start_new st name rn now).2
        = some ⟨st.nextSimId, name, avatar_initial_messages, now, rn⟩
      ∧ avatar_initial_messages = [⟨"user", "I am ready to begin the simulation."⟩]
      ∧ strContainsStr (avatar_assistant_context wd rt) rt = true := by
  refine ⟨findSim_create st _ _ now rn hwf, rfl, ?_, findSim_create st name _ now rn hwf,
    rfl, ?_⟩
  · exact strContainsStr_append_self
      ("I would like to discuss Report #" ++ toString rn ++ ". Here is the report:\n\n") rt
  · exact strContainsStr_append_self
      ("World Description:\n" ++ wd ++ "\n\nDivergent Timeline Report:\n") rt

/-- Witness for C7 (amended) at `wStore`. -/
theorem fresh_session_seeded_and_persisted_witness :
    findSim (chat_start_new wStore 1 "the report text" "t2").1
        (chat_start_new wStore 1 "the report text" "t2").2
        = some ⟨wStore.nextSimId, "chrono_chat_report_" ++ toString 1,
            chat_initial_messages 1 "the report text", "t2", 1⟩
      ∧ (chat_initial_messages 1 "the report text").map Message.role = ["user"]
      ∧ strContainsStr ((chat_initial_messages 1 "the report text").headD default).content
          "the report text" = true
      ∧ findSim (avatar_start_new wStore "avat" 1 "t2").1
          (avatar_start_new wStore "avat" 1 "t2").2
        = some ⟨wStore.nextSimId, "avat", avatar_initial_messages, "t2", 1⟩
      ∧ avatar_initial_messages = [⟨"user", "I am ready to begin the simulation."⟩]
      ∧ strContainsStr (avatar_assistant_context "w" "the report text") "the report text"
          = true :=
  fresh_session_seeded_and_persisted wStore 1 "the report text" "t2" "avat" "w" (by decide)

/-- A report whose narrative is longer than the avatar seed sentence. -/
def c7Report : ReportRow :=
  ⟨1, "In this divergent timeline the printing press reaches the Americas three centuries early.",
    "t0", "w"⟩

/-- A store holding only `c7Report`. -/
def c7Store : Store :=
  { reports := [c7Report], sims := [], nextReportId := 2, nextSimId := 1 }

/-- Counterexample to C7 as stated: starting a fresh avatar exploration
of `c7Report` persists a session whose first (and only) message is the
fixed sentence "I am ready to begin the simulation.", which does not
contain the report's narrative text. -/
theorem avatar_seed_lacks_narrative_counterexample :
    findReport c7Store 1 = some c7Report
      ∧ (avatar_start_new c7Store "sim" 1 "t0").1.sims
          = [⟨1, "sim", avatar_initial_messages, "t0", 1⟩]
      ∧ strContainsStr ((avatar_initial_messages.headD default).content)
          c7Report.report_text = false := by
  decide

end HistorySim
